import Mathlib

/-!
Shallow embedding of the session-credential lifecycle (src/auth.py), the
update-flag store (src/redis_funcs.py) and the SSE channel registry
(src/main.py) of the Rserve backend, with theorems settling the spec claims.

Time is modelled as epoch seconds (Int).  JWT strings are modelled
symbolically: a string is either empty, a string that fails signature or
format checks, or a correctly signed token carrying a payload.  Python
exceptions that escape a handler are modelled as explicit error outcomes.
-/

namespace Rserve

/-- Role enum from classes.py (`class Role(str, Enum)`). -/
inductive Role
  | admin
  | owner
  | employee
  deriving DecidableEq, Repr

/-- The claim set carried in a signed JWT handled by auth.py: the optional
"sub" and "role" claims and the numeric "exp" claim (epoch seconds), which
PyJWT decodes back to a plain int. -/
structure Payload where
  sub : Option String
  role : Option Role
  exp : Int
  deriving DecidableEq, Repr

/-- A candidate token string: empty (falsy in Python), a string rejected by
jwt.decode (not a JWT, bad signature, wrong algorithm), or a string signed
with SECRET_KEY carrying payload `p`. -/
inductive TokenStr
  | empty
  | malformed (s : String)
  | signed (p : Payload)
  deriving DecidableEq, Repr

/-- Exceptions raised by jwt.decode: ExpiredSignatureError (signature valid,
"exp" in the past) is a subclass of InvalidTokenError, itself a PyJWTError. -/
inductive JwtError
  | expiredSignature
  | invalidToken
  deriving DecidableEq, Repr

/-- jwt.decode(token, SECRET_KEY, algorithms=[ALGORITHM]) evaluated at time
`now`: rejects non-JWT or badly signed strings, rejects signed tokens whose
"exp" claim is not in the future, and otherwise returns the payload. -/
def jwtDecode (tok : TokenStr) (now : Int) : Except JwtError Payload :=
  match tok with
  | .empty => .error .invalidToken
  | .malformed _ => .error .invalidToken
  | .signed p => if p.exp ≤ now then .error .expiredSignature else .ok p

/-- Outcome of a Python call that does not return normally: an
fastapi.HTTPException with status code and detail, or an exception that no
handler catches (TypeError, KeyError) — i.e. a crash. -/
inductive PyOutcome
  | httpError (status : Nat) (detail : String)
  | typeError
  | keyError
  deriving DecidableEq, Repr

/-- The Python values flowing through the renewal-window expression in
refresh_token: the decoded "exp" claim (an int), datetime.utcnow() (a
datetime), and timedelta(days=...). -/
inductive PyVal
  | int (n : Int)
  | datetime (t : Int)
  | timedelta (d : Int)
  deriving DecidableEq, Repr

/-- Python binary subtraction on these values.  datetime arithmetic is
defined between datetimes and timedeltas; `int - datetime` is not defined
by either operand, so Python raises TypeError (`none`). -/
def pySub : PyVal → PyVal → Option PyVal
  | .int a, .int b => some (.int (a - b))
  | .datetime a, .datetime b => some (.timedelta (a - b))
  | .datetime a, .timedelta d => some (.datetime (a - d))
  | .timedelta a, .timedelta b => some (.timedelta (a - b))
  | _, _ => none

/-- Python `<` on these values: defined between two values of the same kind,
TypeError (`none`) otherwise. -/
def pyLt : PyVal → PyVal → Option Bool
  | .int a, .int b => some (decide (a < b))
  | .datetime a, .datetime b => some (decide (a < b))
  | .timedelta a, .timedelta b => some (decide (a < b))
  | _, _ => none

def ACCESS_TOKEN_EXPIRE_MINUTES : Int := 15
def REFRESH_TOKEN_EXPIRE_DAYS : Int := 30
def REFRESH_TOKEN_RENEW_DAYS : Int := 7

/-- create_access_token: copies the data dict (\x7b"sub", "role"\x7d), adds
exp = utcnow() + 15 minutes, and signs it. -/
def create_access_token (sub : String) (role : Role) (now : Int) : TokenStr :=
  .signed ⟨some sub, some role, now + ACCESS_TOKEN_EXPIRE_MINUTES * 60⟩

/-- create_refresh_token: same with exp = utcnow() + 30 days. -/
def create_refresh_token (sub : String) (role : Role) (now : Int) : TokenStr :=
  .signed ⟨some sub, some role, now + REFRESH_TOKEN_EXPIRE_DAYS * 86400⟩

/-- verify_token: reads the access_token cookie (`none` when absent); a
missing or empty cookie is falsy and yields 403 "Token not found"; a decode
failure of any kind (PyJWTError) yields 403 "Could not validate
credentials"; a payload whose "sub" or "role" is None yields
403 "Invalid token" (raised inside the try block, but HTTPException is not
a PyJWTError, so it propagates); otherwise returns (restaurant_id, role). -/
def verify_token (cookie : Option TokenStr) (now : Int) :
    Except PyOutcome (String × Role) :=
  match cookie with
  | none => .error (.httpError 403 "Token not found")
  | some .empty => .error (.httpError 403 "Token not found")
  | some tok =>
    match jwtDecode tok now with
    | .error _ => .error (.httpError 403 "Could not validate credentials")
    | .ok payload =>
      match payload.sub, payload.role with
      | some restaurant_id, some role => .ok (restaurant_id, role)
      | _, _ => .error (.httpError 403 "Invalid token")

/-- refresh_token: a missing or empty cookie yields 403 "Refresh token not
found"; ExpiredSignatureError yields 403 "Refresh token expired";
any other InvalidTokenError yields 403 "Invalid refresh token".  On a
successful decode the code evaluates
`payload["exp"] - datetime.utcnow() < timedelta(days=7)`:
the left subtraction is `int - datetime`, modelled by pySub; a TypeError
from it is caught by neither except clause (they only catch PyJWT errors),
so it escapes as a crash.  The remaining arms model the rest of the
statement as written: rotate the refresh token when the remaining lifetime
is under the renewal window, keep the client's token otherwise, and always
mint a fresh access token. -/
def refresh_token (cookie : Option TokenStr) (now : Int) :
    Except PyOutcome (TokenStr × TokenStr) :=
  match cookie with
  | none => .error (.httpError 403 "Refresh token not found")
  | some .empty => .error (.httpError 403 "Refresh token not found")
  | some tok =>
    match jwtDecode tok now with
    | .error .expiredSignature => .error (.httpError 403 "Refresh token expired")
    | .error .invalidToken => .error (.httpError 403 "Invalid refresh token")
    | .ok payload =>
      match pySub (.int payload.exp) (.datetime now) with
      | none => .error .typeError
      | some remaining =>
        match pyLt remaining (.timedelta (REFRESH_TOKEN_RENEW_DAYS * 86400)) with
        | none => .error .typeError
        | some renew =>
          match payload.sub, payload.role with
          | some sub, some role =>
            let new_refresh_token :=
              if renew then create_refresh_token sub role now else tok
            .ok (create_access_token sub role now, new_refresh_token)
          | _, _ => .error .keyError

/-- The admin_accounts table, restricted to what verify_password reads:
restaurant_id → hashed_pw column of the matching row (`none` when
find_one matches no row and returns None). -/
abbrev AccountTable := String → Option String

/-- verify_password: looks the account up by restaurant_id and compares the
stored hash with bcrypt.checkpw (modelled as the abstract `checkpw`
collaborator).  When find_one matches no row it returns None and the
subscript None["hashed_pw"] raises an uncaught TypeError. -/
def verify_password (table : AccountTable) (checkpw : String → String → Bool)
    (restaurant_id : String) (plain_password : String) : Except PyOutcome Bool :=
  match table restaurant_id with
  | none => .error .typeError
  | some hashed_pw => .ok (checkpw plain_password hashed_pw)

/-! ## Update flag store (src/redis_funcs.py)

The Redis database is modelled as a partial map from key strings to value
strings.  Values are strings; the code stores "1" and compares the fetched
bytes against b"1". -/

abbrev Store := String → Option String

/-- The Redis key used for a tenant, from the f-string in redis_funcs.py:
the fixed marker followed by the restaurant id. -/
def flagKey (restaurant_id : String) : String := "update_flag:" ++ restaurant_id

/-- set_update_flag: redis_client.set(flagKey rid, "1"). -/
def set_update_flag (restaurant_id : String) (r : Store) : Store :=
  fun k => if k = flagKey restaurant_id then some "1" else r k

/-- check_for_updates run as one sequential (uninterrupted) call: GET the
key; if the value is "1", DELETE the key and return True, else return
False.  Returns the result together with the store it leaves behind. -/
def check_for_updates (restaurant_id : String) (r : Store) : Bool × Store :=
  if r (flagKey restaurant_id) = some "1" then
    (true, fun k => if k = flagKey restaurant_id then none else r k)
  else
    (false, r)

/-! ## check_for_updates as two store operations, for racing pollers

check_for_updates is not one atomic Redis command: it issues a GET, and
only afterwards — as a second, separate command — a DELETE.  A poller is
therefore a two-step program; between its GET and its DELETE another
poller's commands may reach the store. -/

/-- Control state of one poller executing check_for_updates. -/
inductive PollerState
  | start
  | sawFlag
  | done (result : Bool)
  deriving DecidableEq, Repr

/-- One atomic command of a poller against the shared store: from `start`
it executes the GET and branches on the value; from `sawFlag` it executes
the DELETE and returns True. -/
def pollerStep (restaurant_id : String) (p : PollerState) (r : Store) :
    PollerState × Store :=
  match p with
  | .start =>
    if r (flagKey restaurant_id) = some "1" then (.sawFlag, r)
    else (.done false, r)
  | .sawFlag =>
    (.done true, fun k => if k = flagKey restaurant_id then none else r k)
  | .done b => (.done b, r)

/-- Two pollers sharing a store. -/
structure RaceState where
  p1 : PollerState
  p2 : PollerState
  store : Store

/-- Run one scheduled step: `true` schedules poller 1, `false` poller 2. -/
def raceStep (restaurant_id : String) (st : RaceState) (turn : Bool) : RaceState :=
  if turn then
    let (p1', s') := pollerStep restaurant_id st.p1 st.store
    ⟨p1', st.p2, s'⟩
  else
    let (p2', s') := pollerStep restaurant_id st.p2 st.store
    ⟨st.p1, p2', s'⟩

/-- Run a whole schedule (an interleaving of the two pollers). -/
def runRace (restaurant_id : String) (sched : List Bool) (st : RaceState) :
    RaceState :=
  sched.foldl (raceStep restaurant_id) st

/-! ## SSE channel registry (src/main.py)

main.py holds a module-level registry `sse_tasks = set()` whose declared
purpose is the lifespan shutdown block: it cancels every task in the set
and awaits them.  The state below tracks that registry (task handles as
Nats) alongside the event-generator coroutines actually running, one per
open update stream (by tenant id), which main.py does not record
anywhere. -/

structure SseState where
  sse_tasks : List Nat
  openGenerators : List String
  deriving DecidableEq, Repr

/-- Module import time: sse_tasks = set(), no stream open. -/
def sseInit : SseState := ⟨[], []⟩

/-- Effect of the stream_reservations handler on the process state: it
builds event_generator() and returns a StreamingResponse, so a new
generator for the tenant starts running; no statement in the handler (or
anywhere else in main.py) adds anything to sse_tasks. -/
def stream_reservations_open (st : SseState) (restaurant_id : String) : SseState :=
  { st with openGenerators := restaurant_id :: st.openGenerators }

/-- The finally block of lifespan: `for task in sse_tasks: task.cancel()`
then `await asyncio.gather(*sse_tasks, ...)`.  The set of task handles the
shutdown sequence cancels and awaits is exactly sse_tasks. -/
def lifespan_shutdown_cancelled (st : SseState) : List Nat := st.sse_tasks

/-! ## Helper lemmas -/

/-- Distinct tenant ids get distinct Redis keys: appending to the fixed
marker is injective. -/
theorem flagKey_injective {a b : String} (h : flagKey a = flagKey b) : a = b := by
  have hd := congrArg String.data h
  simp only [flagKey, String.data_append] at hd
  exact String.ext (List.append_cancel_left hd)

/-! ## Claims -/

/-- C1: the spec says refresh on every successfully decoded token returns a
fresh access token plus the original refresh token (remaining lifetime at
least 7 days) or a newly rotated one (below 7 days).  The code instead
evaluates payload["exp"] - datetime.utcnow(), an int-minus-datetime
subtraction Python rejects with a TypeError that neither except clause
catches: evaluated at a token with 30 days of lifetime left and at one
with 1 day left, refresh crashes and produces no tokens in either case. -/
theorem c1_refresh_renewal_check_crashes :
    refresh_token (some (.signed ⟨some "r1", some .owner, 2592000⟩)) 0
      = .error .typeError
    ∧ refresh_token (some (.signed ⟨some "r1", some .owner, 86400⟩)) 0
      = .error .typeError :=
  ⟨rfl, rfl⟩

/-- C2: the spec requires take to be one atomic test-and-clear, so that two
take calls racing against one set yield exactly one true.  check_for_updates
is a GET followed by a separate DELETE: under the schedule where both
pollers run their GET before either DELETE, both calls return true for the
single set — double consumption. -/
theorem c2_take_race_double_consumption :
    (runRace "r1" [true, false, true, false]
        ⟨.start, .start, set_update_flag "r1" (fun _ => none)⟩).p1 = .done true
    ∧ (runRace "r1" [true, false, true, false]
        ⟨.start, .start, set_update_flag "r1" (fun _ => none)⟩).p2 = .done true := by
  constructor <;> rfl

/-- C3: the spec says opening the update stream registers the channel's
task handle in the process-wide registry, and shutdown cancels and awaits
every registered channel.  In main.py nothing ever adds to sse_tasks:
after opening a stream from the fresh process state one generator is
running, the registry is still empty, and the shutdown sequence therefore
cancels no task at all. -/
theorem c3_stream_open_leaves_registry_empty :
    (stream_reservations_open sseInit "r1").openGenerators = ["r1"]
    ∧ (stream_reservations_open sseInit "r1").sse_tasks = []
    ∧ lifespan_shutdown_cancelled (stream_reservations_open sseInit "r1") = [] :=
  ⟨rfl, rfl, rfl⟩

/-- C4: refresh fails with "Refresh token not found" (Unauthenticated) when
no token or an empty token is supplied, with "Refresh token expired"
(Expired) when the token's expiry has passed, with "Invalid refresh token"
(InvalidCredential) on any other decode failure, and a failing call never
also returns a token pair. -/
theorem c4_refresh_failure_taxonomy (now : Int) (p : Payload) (s : String)
    (hexp : p.exp ≤ now) :
    refresh_token none now = .error (.httpError 403 "Refresh token not found")
    ∧ refresh_token (some .empty) now
        = .error (.httpError 403 "Refresh token not found")
    ∧ refresh_token (some (.signed p)) now
        = .error (.httpError 403 "Refresh token expired")
    ∧ refresh_token (some (.malformed s)) now
        = .error (.httpError 403 "Invalid refresh token")
    ∧ ∀ (c : Option TokenStr) (t : Int) (e : PyOutcome) (pr : TokenStr × TokenStr),
        refresh_token c t = .error e → refresh_token c t ≠ .ok pr := by
  refine ⟨rfl, rfl, ?_, rfl, ?_⟩
  · simp [refresh_token, jwtDecode, hexp]
  · intro c t e pr he hok
    rw [he] at hok
    exact Except.noConfusion hok

/-- Witness for C4 at now = 0, an expired payload and a malformed string. -/
theorem c4_refresh_failure_taxonomy_witness :
    ((Payload.mk (some "r1") (some .admin) (-5)).exp ≤ (0 : Int))
    ∧ (refresh_token none 0 = .error (.httpError 403 "Refresh token not found")
      ∧ refresh_token (some .empty) 0
          = .error (.httpError 403 "Refresh token not found")
      ∧ refresh_token (some (.signed ⟨some "r1", some .admin, -5⟩)) 0
          = .error (.httpError 403 "Refresh token expired")
      ∧ refresh_token (some (.malformed "not-a-jwt")) 0
          = .error (.httpError 403 "Invalid refresh token")
      ∧ ∀ (c : Option TokenStr) (t : Int) (e : PyOutcome) (pr : TokenStr × TokenStr),
          refresh_token c t = .error e → refresh_token c t ≠ .ok pr) :=
  ⟨by decide,
    c4_refresh_failure_taxonomy 0 ⟨some "r1", some .admin, -5⟩ "not-a-jwt" (by decide)⟩

/-- C5: verify fails with "Token not found" (Unauthenticated) when no
access token is supplied, with "Could not validate credentials"
(InvalidCredential) when decode fails for any codec reason — a malformed
or badly signed string as much as an expired token — with "Invalid token"
(MissingClaim) when the decoded payload lacks "sub" or "role", and
otherwise returns the embedded (subject_id, role) principal. -/
theorem c5_verify_failure_taxonomy (now : Int) (s rid : String) (ro : Role)
    (pe pns pnr pok : Payload)
    (hpe : pe.exp ≤ now)
    (hns : now < pns.exp) (hnssub : pns.sub = none)
    (hnr : now < pnr.exp) (hnrrole : pnr.role = none)
    (hok : now < pok.exp) (hoksub : pok.sub = some rid) (hokrole : pok.role = some ro) :
    verify_token none now = .error (.httpError 403 "Token not found")
    ∧ verify_token (some .empty) now = .error (.httpError 403 "Token not found")
    ∧ verify_token (some (.malformed s)) now
        = .error (.httpError 403 "Could not validate credentials")
    ∧ verify_token (some (.signed pe)) now
        = .error (.httpError 403 "Could not validate credentials")
    ∧ verify_token (some (.signed pns)) now = .error (.httpError 403 "Invalid token")
    ∧ verify_token (some (.signed pnr)) now = .error (.httpError 403 "Invalid token")
    ∧ verify_token (some (.signed pok)) now = .ok (rid, ro) := by
  refine ⟨rfl, rfl, rfl, ?_, ?_, ?_, ?_⟩
  · simp [verify_token, jwtDecode, hpe]
  · have h1 : ¬ pns.exp ≤ now := not_le.mpr hns
    simp [verify_token, jwtDecode, h1, hnssub]
  · have h1 : ¬ pnr.exp ≤ now := not_le.mpr hnr
    obtain ⟨su, _, _⟩ := pnr
    simp only at hnrrole
    subst hnrrole
    cases su <;> simp [verify_token, jwtDecode, h1]
  · have h1 : ¬ pok.exp ≤ now := not_le.mpr hok
    simp [verify_token, jwtDecode, h1, hoksub, hokrole]

/-- Witness for C5 at now = 0 with one payload per taxonomy branch. -/
theorem c5_verify_failure_taxonomy_witness :
    ((Payload.mk (some "r1") (some .admin) (-5)).exp ≤ (0 : Int)
      ∧ (0 : Int) < (Payload.mk none (some Role.admin) 100).exp
      ∧ (Payload.mk none (some Role.admin) 100).sub = none
      ∧ (0 : Int) < (Payload.mk (some "r1") none 100).exp
      ∧ (Payload.mk (some "r1") none 100).role = none
      ∧ (0 : Int) < (Payload.mk (some "r1") (some Role.owner) 100).exp
      ∧ (Payload.mk (some "r1") (some Role.owner) 100).sub = some "r1"
      ∧ (Payload.mk (some "r1") (some Role.owner) 100).role = some Role.owner)
    ∧ (verify_token none 0 = .error (.httpError 403 "Token not found")
      ∧ verify_token (some .empty) 0 = .error (.httpError 403 "Token not found")
      ∧ verify_token (some (.malformed "xx")) 0
          = .error (.httpError 403 "Could not validate credentials")
      ∧ verify_token (some (.signed ⟨some "r1", some .admin, -5⟩)) 0
          = .error (.httpError 403 "Could not validate credentials")
      ∧ verify_token (some (.signed ⟨none, some Role.admin, 100⟩)) 0
          = .error (.httpError 403 "Invalid token")
      ∧ verify_token (some (.signed ⟨some "r1", none, 100⟩)) 0
          = .error (.httpError 403 "Invalid token")
      ∧ verify_token (some (.signed ⟨some "r1", some Role.owner, 100⟩)) 0
          = .ok ("r1", Role.owner)) :=
  ⟨by refine ⟨by decide, by decide, rfl, by decide, rfl, by decide, rfl, rfl⟩,
    c5_verify_failure_taxonomy 0 "xx" "r1" Role.owner
      ⟨some "r1", some .admin, -5⟩ ⟨none, some Role.admin, 100⟩
      ⟨some "r1", none, 100⟩ ⟨some "r1", some Role.owner, 100⟩
      (by decide) (by decide) rfl (by decide) rfl (by decide) rfl rfl⟩

/-- C6: verifying the access token minted for a principal, at any time
before its 15-minute expiry, succeeds and returns exactly that principal. -/
theorem c6_access_token_roundtrip (sub : String) (role : Role) (now t : Int)
    (h : t < now + ACCESS_TOKEN_EXPIRE_MINUTES * 60) :
    verify_token (some (create_access_token sub role now)) t = .ok (sub, role) := by
  have h1 : ¬ now + ACCESS_TOKEN_EXPIRE_MINUTES * 60 ≤ t := not_le.mpr h
  simp [verify_token, create_access_token, jwtDecode, h1]

/-- Witness for C6: issue at time 0 and verify immediately. -/
theorem c6_access_token_roundtrip_witness :
    ((0 : Int) < 0 + ACCESS_TOKEN_EXPIRE_MINUTES * 60)
    ∧ verify_token (some (create_access_token "r1" Role.owner 0)) 0
        = .ok ("r1", Role.owner) :=
  ⟨by decide, c6_access_token_roundtrip "r1" Role.owner 0 0 (by decide)⟩

/-- C7: sequentially, take returns false while the tenant's flag is unset,
returns true on the first take after a set, and false again on a second
immediate take with no intervening set — each set is consumed once. -/
theorem c7_flag_sequential (t : String) (s : Store)
    (h : s (flagKey t) ≠ some "1") :
    (check_for_updates t s).1 = false
    ∧ (check_for_updates t (set_update_flag t s)).1 = true
    ∧ (check_for_updates t (check_for_updates t (set_update_flag t s)).2).1 = false := by
  refine ⟨?_, ?_, ?_⟩ <;> simp [check_for_updates, set_update_flag, h]

/-- Witness for C7: tenant "r1" over the empty store. -/
theorem c7_flag_sequential_witness :
    ((fun _ => none : Store) (flagKey "r1") ≠ some "1")
    ∧ ((check_for_updates "r1" (fun _ => none)).1 = false
      ∧ (check_for_updates "r1" (set_update_flag "r1" (fun _ => none))).1 = true
      ∧ (check_for_updates "r1"
          (check_for_updates "r1" (set_update_flag "r1" (fun _ => none))).2).1 = false) :=
  ⟨by decide, c7_flag_sequential "r1" (fun _ => none) (by decide)⟩

/-- C8: authenticate returns false when the hash comparison fails, but when
no account matches the subject_id, find_one returns None and the code
crashes with an uncaught TypeError instead of returning false — it does
raise on "account not found". -/
theorem c8_authenticate_missing_account_crashes :
    verify_password (fun r => if r = "r1" then some "hash1" else none)
        (fun _ _ => false) "r1" "wrong" = .ok false
    ∧ verify_password (fun r => if r = "r1" then some "hash1" else none)
        (fun _ _ => false) "ghost" "pw" = .error .typeError := by
  constructor <;> rfl

/-- C9: the lifecycle does crash on some inputs rather than always
rejecting with a taxonomy error kind: refresh with a valid, freshly signed
refresh token dies on the int-minus-datetime TypeError, and authenticate
with an unknown subject_id dies on the None subscript TypeError. -/
theorem c9_lifecycle_uncaught_exceptions :
    refresh_token (some (.signed ⟨some "r2", some .admin, 1296000⟩)) 0
      = .error .typeError
    ∧ verify_password (fun _ => none) (fun _ _ => true) "r9" "pw"
      = .error .typeError :=
  ⟨rfl, rfl⟩

/-- C10: flag operations are isolated per tenant: for distinct tenants,
setting or taking one tenant's flag leaves the other tenant's key
unchanged, because keys are namespaced by tenant id. -/
theorem c10_flag_tenant_isolation (t t' : String) (s : Store) (h : t ≠ t') :
    set_update_flag t s (flagKey t') = s (flagKey t')
    ∧ (check_for_updates t s).2 (flagKey t') = s (flagKey t') := by
  have hk : flagKey t' ≠ flagKey t := fun he => h (flagKey_injective he).symm
  constructor
  · simp [set_update_flag, hk]
  · unfold check_for_updates
    split
    · simp [hk]
    · rfl

/-- Witness for C10: tenants "a" and "b" over a store where both flags are
set. -/
theorem c10_flag_tenant_isolation_witness :
    (("a" : String) ≠ "b")
    ∧ (set_update_flag "a" (fun _ => some "1") (flagKey "b")
        = (fun _ => some "1" : Store) (flagKey "b")
      ∧ (check_for_updates "a" (fun _ => some "1")).2 (flagKey "b")
        = (fun _ => some "1" : Store) (flagKey "b")) :=
  ⟨by decide, c10_flag_tenant_isolation "a" "b" (fun _ => some "1") (by decide)⟩

end Rserve
